import Mathlib

/-!
Shallow embedding of the typed request pipeline of the github-actions-mcp-server
repository: the per-operation zod parameter schemas and operation functions of
src/src/operations/actions.ts, the tool registrations of src/src/index.ts, and —
modelled from the spec, since src/common/utils.ts, src/common/errors.ts and
src/common/types.ts are absent from the snapshot — the owner/repository name
validators, the query-string builder, the HTTP adapter's status classification,
and the typed response shapes.

Network I/O is represented by an oracle mapping each issued request to an HTTP
response; every operation function returns the list of requests it issued
together with its result, so that "no request is issued" is a provable fact.
-/

namespace GhActionsMcp

/-- JSON values, the wire data of the pipeline. -/
inductive Value where
  | str (s : String)
  | num (n : Int)
  | bool (b : Bool)
  | null
  | arr (elems : List Value)
  | obj (fields : List (String × Value))

/-- A field-specific validation failure: the offending field and its message. -/
structure FieldError where
  field : String
  message : String
deriving DecidableEq, Repr

/-- The classified error taxonomy of the spec (src/common/errors.ts is absent
from the snapshot; the kinds and their kind-specific fields follow spec sections
4.3 and 7). Caller-side validation carries the field errors; upstream 422
validation carries the raw response body. -/
inductive GitHubError where
  | validation (fieldErrors : List FieldError) (response : Option Value)
  | notFound
  | authentication
  | permission
  | rateLimit (resetAt : Nat)
  | conflict
  | timeout (timeoutMs : Nat)
  | network (errorCode : String)
  | parse (message : String)
  | generic (status : Nat)

/-- Modelled from the spec: `validateOwnerName` lives in src/common/utils.ts,
which is absent from the snapshot. Per spec sections 3 and 4.1 the owner must be
non-empty, drawn from the allowed account-name character set, have no leading or
trailing hyphen, and respect the platform length limit; a violation raises a
validation error with a field-specific message, and a valid name is returned
unchanged. -/
def validateOwnerName (owner : String) : Except FieldError String :=
  if owner.isEmpty then
    .error ⟨"owner", "owner name cannot be empty"⟩
  else if !(owner.toList.all fun c => c.isAlphanum || c = '-') then
    .error ⟨"owner", "owner name contains disallowed characters"⟩
  else if owner.front = '-' || owner.back = '-' then
    .error ⟨"owner", "owner name cannot start or end with a hyphen"⟩
  else if 39 < owner.length then
    .error ⟨"owner", "owner name exceeds the length limit"⟩
  else
    .ok owner

/-- Modelled from the spec: `validateRepositoryName` lives in
src/common/utils.ts, which is absent from the snapshot. Per spec sections 3 and
4.1 the repository name must be non-empty, drawn from the allowed
repository-name character set, and respect the platform length limit; a
violation raises a validation error with a field-specific message. -/
def validateRepositoryName (repo : String) : Except FieldError String :=
  if repo.isEmpty then
    .error ⟨"repo", "repository name cannot be empty"⟩
  else if !(repo.toList.all fun c => c.isAlphanum || c = '-' || c = '_' || c = '.') then
    .error ⟨"repo", "repository name contains disallowed characters"⟩
  else if 100 < repo.length then
    .error ⟨"repo", "repository name exceeds the length limit"⟩
  else
    .ok repo

/-- A query-parameter value as passed to the URL builder: a string, a number or
a boolean, mirroring the JavaScript values the operations put in the mapping. -/
inductive QVal where
  | s (v : String)
  | n (v : Int)
  | b (v : Bool)
deriving DecidableEq

/-- Serialization of a defined query value: booleans as the literal strings
"true" and "false", numbers and strings via standard string conversion
(spec section 4.2). -/
def QVal.serialize : QVal → String
  | .s v => v
  | .n v => toString v
  | .b v => if v then "true" else "false"

/-- Modelled from the spec: the query-assembly half of `buildUrl` from
src/common/utils.ts, absent from the snapshot. Keys whose value is defined are
kept in declaration order with their serialized value; keys whose value is
absent are omitted entirely (spec section 4.2). Percent-encoding is not
modelled; no claim under verification concerns it. -/
def buildUrlParams (params : List (String × Option QVal)) : List (String × String) :=
  params.filterMap fun p => p.2.map fun v => (p.1, v.serialize)

/-- Modelled from the spec: `buildUrl` from src/common/utils.ts, absent from the
snapshot. Renders the base path unchanged when every optional value is absent,
and otherwise appends the defined key=value pairs (spec section 4.2). -/
def buildUrl (base : String) (params : List (String × Option QVal)) : String :=
  match buildUrlParams params with
  | [] => base
  | ps => base ++ "?" ++ String.intercalate "&" (ps.map fun p => p.1 ++ "=" ++ p.2)

/-- An HTTP request as issued by the adapter. -/
structure Request where
  url : String
  method : String
  body : Option Value

/-- An upstream HTTP response: status, the rate-limit headers the adapter
inspects, and the decoded JSON body (`none` for an empty body). -/
structure HttpResponse where
  status : Nat
  rateLimitRemaining : Option Nat
  rateLimitReset : Option Nat
  body : Option Value

/-- Modelled from the spec: the status-to-error classification performed by
`githubRequest` in src/common/utils.ts, absent from the snapshot, following
spec section 4.3. A 403 is a rate-limit error exactly when the remaining-quota
header is zero and a reset header is present to parse, and a permission error
otherwise; 2xx returns the body (`none` when empty). -/
def classifyResponse (r : HttpResponse) : Except GitHubError (Option Value) :=
  if 200 ≤ r.status ∧ r.status < 300 then
    .ok r.body
  else if r.status = 401 then
    .error .authentication
  else if r.status = 403 then
    match r.rateLimitRemaining, r.rateLimitReset with
    | some 0, some reset => .error (.rateLimit reset)
    | _, _ => .error .permission
  else if r.status = 404 then
    .error .notFound
  else if r.status = 409 then
    .error .conflict
  else if r.status = 422 then
    .error (.validation [] r.body)
  else
    .error (.generic r.status)

/-- Modelled from the spec: `githubRequest` from src/common/utils.ts, absent
from the snapshot. The network is the oracle `respond`; the adapter issues the
request and classifies the response (spec section 4.3). Transport timeout and
network failure are outcomes of the real network, not of this classification,
and are not modelled. -/
def githubRequest (respond : Request → HttpResponse) (url : String) (method : String)
    (body : Option Value) : Except GitHubError (Option Value) :=
  classifyResponse (respond ⟨url, method, body⟩)

/-- First value bound to a key in a JSON object's field list. -/
def lookupField : List (String × Value) → String → Option Value
  | [], _ => none
  | f :: fs, k => if f.1 = k then some f.2 else lookupField fs k

/-- The zod field types used by the schemas of src/src/operations/actions.ts and
the response shapes: string, number, boolean, a string-or-number union, a string
enumeration, a string-valued record, and the coarse array/object shapes of the
response schemas. -/
inductive ZTy where
  | str
  | num
  | bool
  | strOrNum
  | enumOf (vals : List String)
  | recordOfStr
  | arrAny
  | objAny
deriving DecidableEq

/-- One field of a zod object schema: its name, whether it is optional, and its
type. -/
structure ZField where
  name : String
  isOptional : Bool
  ty : ZTy
deriving DecidableEq

/-- Whether a JSON value conforms to a zod field type. -/
def zCheck : ZTy → Value → Bool
  | .str, .str _ => true
  | .num, .num _ => true
  | .bool, .bool _ => true
  | .strOrNum, .str _ => true
  | .strOrNum, .num _ => true
  | .enumOf vs, .str s => vs.contains s
  | .recordOfStr, .obj fs => fs.all fun f => match f.2 with | .str _ => true | _ => false
  | .arrAny, .arr _ => true
  | .objAny, .obj _ => true
  | _, _ => false

/-- The issues zod would report for an object body against a schema: one issue
per required-but-missing field and per ill-typed present field; zod collects
every issue, not just the first. -/
def zodIssues (sch : List ZField) (fs : List (String × Value)) : List String :=
  sch.filterMap fun f =>
    match lookupField fs f.name with
    | some fv => if zCheck f.ty fv then none else some ("invalid type for field: " ++ f.name)
    | none => if f.isOptional then none else some ("required field missing: " ++ f.name)

/-- Whether an object body conforms to a schema: every required field present
and well-typed, every present optional field well-typed. -/
def zodWellFormed (sch : List ZField) (fs : List (String × Value)) : Bool :=
  sch.all fun f =>
    match lookupField fs f.name with
    | some fv => zCheck f.ty fv
    | none => f.isOptional

/-- The semantics of a zod object schema's parse: a non-object is rejected; an
object is rejected with the full issue list when any modeled field is missing or
ill-typed, and otherwise yields the modeled fields with their original values
(unknown extra fields are stripped). -/
def zodParse (sch : List ZField) (v : Value) :
    Except (List String) (List (String × Value)) :=
  match v with
  | .obj fs =>
      match zodIssues sch fs with
      | [] => .ok (sch.filterMap fun f => (lookupField fs f.name).map fun fv => (f.name, fv))
      | issues => .error issues
  | _ => .error ["expected an object"]

/-- ListWorkflowsSchema from src/src/operations/actions.ts. -/
def ListWorkflowsSchema : List ZField :=
  [⟨"owner", false, .str⟩, ⟨"repo", false, .str⟩,
   ⟨"page", true, .num⟩, ⟨"perPage", true, .num⟩]

/-- GetWorkflowSchema from src/src/operations/actions.ts. -/
def GetWorkflowSchema : List ZField :=
  [⟨"owner", false, .str⟩, ⟨"repo", false, .str⟩, ⟨"workflowId", false, .strOrNum⟩]

/-- GetWorkflowUsageSchema from src/src/operations/actions.ts: defined as
GetWorkflowSchema itself. -/
def GetWorkflowUsageSchema : List ZField := GetWorkflowSchema

/-- The legal values of the status filter of ListWorkflowRunsSchema. -/
def runStatusValues : List String :=
  ["completed", "action_required", "cancelled", "failure", "neutral", "skipped",
   "stale", "success", "timed_out", "in_progress", "queued", "requested",
   "waiting", "pending"]

/-- ListWorkflowRunsSchema from src/src/operations/actions.ts. -/
def ListWorkflowRunsSchema : List ZField :=
  [⟨"owner", false, .str⟩, ⟨"repo", false, .str⟩,
   ⟨"workflowId", true, .strOrNum⟩, ⟨"actor", true, .str⟩,
   ⟨"branch", true, .str⟩, ⟨"event", true, .str⟩,
   ⟨"status", true, .enumOf runStatusValues⟩, ⟨"created", true, .str⟩,
   ⟨"excludePullRequests", true, .bool⟩, ⟨"checkSuiteId", true, .num⟩,
   ⟨"page", true, .num⟩, ⟨"perPage", true, .num⟩]

/-- GetWorkflowRunSchema from src/src/operations/actions.ts. -/
def GetWorkflowRunSchema : List ZField :=
  [⟨"owner", false, .str⟩, ⟨"repo", false, .str⟩, ⟨"runId", false, .num⟩]

/-- GetWorkflowRunJobsSchema from src/src/operations/actions.ts. -/
def GetWorkflowRunJobsSchema : List ZField :=
  [⟨"owner", false, .str⟩, ⟨"repo", false, .str⟩, ⟨"runId", false, .num⟩,
   ⟨"filter", true, .enumOf ["latest", "all"]⟩,
   ⟨"page", true, .num⟩, ⟨"perPage", true, .num⟩]

/-- TriggerWorkflowSchema from src/src/operations/actions.ts. -/
def TriggerWorkflowSchema : List ZField :=
  [⟨"owner", false, .str⟩, ⟨"repo", false, .str⟩,
   ⟨"workflowId", false, .strOrNum⟩, ⟨"ref", false, .str⟩,
   ⟨"inputs", true, .recordOfStr⟩]

/-- CancelWorkflowRunSchema from src/src/operations/actions.ts. -/
def CancelWorkflowRunSchema : List ZField :=
  [⟨"owner", false, .str⟩, ⟨"repo", false, .str⟩, ⟨"runId", false, .num⟩]

/-- RerunWorkflowSchema from src/src/operations/actions.ts: defined as
CancelWorkflowRunSchema itself. -/
def RerunWorkflowSchema : List ZField := CancelWorkflowRunSchema

/-- Modelled from the spec: the typed response shape WorkflowsSchema of
src/common/types.ts, absent from the snapshot. Spec section 3 types each read
payload per field with missing-field hard failure; the paginated workflows
collection carries a count and the workflow array. -/
def WorkflowsSchema : List ZField :=
  [⟨"total_count", false, .num⟩, ⟨"workflows", false, .arrAny⟩]

/-- Modelled from the spec: the typed response shape WorkflowSchema of
src/common/types.ts, absent from the snapshot; a workflow is identified by a
numeric id and carries name, path and state fields. -/
def WorkflowSchema : List ZField :=
  [⟨"id", false, .num⟩, ⟨"name", false, .str⟩,
   ⟨"path", false, .str⟩, ⟨"state", false, .str⟩]

/-- Modelled from the spec: the typed response shape WorkflowUsageSchema of
src/common/types.ts, absent from the snapshot; usage statistics carry the
billable breakdown object. -/
def WorkflowUsageSchema : List ZField :=
  [⟨"billable", false, .objAny⟩]

/-- Modelled from the spec: the typed response shape WorkflowRunsSchema of
src/common/types.ts, absent from the snapshot; the paginated runs collection
carries a count and the run array. -/
def WorkflowRunsSchema : List ZField :=
  [⟨"total_count", false, .num⟩, ⟨"workflow_runs", false, .arrAny⟩]

/-- Modelled from the spec: the typed response shape WorkflowRunSchema of
src/common/types.ts, absent from the snapshot; a run carries a numeric id and a
status string. -/
def WorkflowRunSchema : List ZField :=
  [⟨"id", false, .num⟩, ⟨"status", false, .str⟩]

/-- Modelled from the spec: the typed response shape JobsSchema of
src/common/types.ts, absent from the snapshot; the jobs collection carries a
count and the job array. -/
def JobsSchema : List ZField :=
  [⟨"total_count", false, .num⟩, ⟨"jobs", false, .arrAny⟩]

/-- Validation of a read operation's raw decoded body against its typed shape:
an empty body or a shape violation is a parse error (spec section 4.4), never a
coerced or defaulted payload. -/
def parseResponse (sch : List ZField) : Option Value →
    Except GitHubError (List (String × Value))
  | none => .error (.parse "unexpected empty response body")
  | some v =>
      match zodParse sch v with
      | .error issues => .error (.parse (String.intercalate "; " issues))
      | .ok payload => .ok payload

/-- A workflow identifier: a numeric ID or a filename string, carried opaquely
(spec section 3, actions.ts `string | number` union). -/
inductive WorkflowId where
  | str (s : String)
  | num (n : Int)
deriving DecidableEq

/-- How a workflow identifier renders inside a URL template literal: standard
string conversion of the JavaScript value. -/
def WorkflowId.render : WorkflowId → String
  | .str s => s
  | .num n => toString n

/-- JavaScript truthiness of a workflow identifier value: the empty string and
the number 0 are falsy, every other string or number is truthy. -/
def WorkflowId.truthy : WorkflowId → Bool
  | .str s => !s.isEmpty
  | .num n => n != 0

/-- JavaScript truthiness of an optional workflow identifier, as tested by
`if (options.workflowId)` in listWorkflowRuns: undefined is falsy. -/
def jsTruthy : Option WorkflowId → Bool
  | none => false
  | some w => w.truthy

/-- The options bag of listWorkflowRuns (actions.ts lines 179-190). -/
structure ListRunsOptions where
  workflowId : Option WorkflowId := none
  actor : Option String := none
  branch : Option String := none
  event : Option String := none
  status : Option String := none
  created : Option String := none
  excludePullRequests : Option Bool := none
  checkSuiteId : Option Int := none
  page : Option Int := none
  perPage : Option Int := none

/-- The synthetic write acknowledgment of the SuccessResponse type. -/
structure SuccessResponse where
  success : Bool
  message : String

/-- The result of one operation call: the HTTP requests it issued, in order,
together with its outcome. -/
def OpResult (α : Type) := List Request × Except GitHubError α

/-- listWorkflows from src/src/operations/actions.ts: validate owner and repo,
build the workflows URL with the optional pagination query, issue the GET and
parse the response against the workflows shape. -/
def listWorkflows (respond : Request → HttpResponse) (owner repo : String)
    (page perPage : Option Int) : OpResult (List (String × Value)) :=
  match validateOwnerName owner with
  | .error e => ([], .error (.validation [e] none))
  | .ok owner =>
  match validateRepositoryName repo with
  | .error e => ([], .error (.validation [e] none))
  | .ok repo =>
  let url := buildUrl
    ("https://api.github.com/repos/" ++ owner ++ "/" ++ repo ++ "/actions/workflows")
    [("page", page.map QVal.n), ("per_page", perPage.map QVal.n)]
  let req : Request := ⟨url, "GET", none⟩
  match classifyResponse (respond req) with
  | .error e => ([req], .error e)
  | .ok body => ([req], parseResponse WorkflowsSchema body)

/-- getWorkflow from src/src/operations/actions.ts. -/
def getWorkflow (respond : Request → HttpResponse) (owner repo : String)
    (workflowId : WorkflowId) : OpResult (List (String × Value)) :=
  match validateOwnerName owner with
  | .error e => ([], .error (.validation [e] none))
  | .ok owner =>
  match validateRepositoryName repo with
  | .error e => ([], .error (.validation [e] none))
  | .ok repo =>
  let url := "https://api.github.com/repos/" ++ owner ++ "/" ++ repo ++
    "/actions/workflows/" ++ workflowId.render
  let req : Request := ⟨url, "GET", none⟩
  match classifyResponse (respond req) with
  | .error e => ([req], .error e)
  | .ok body => ([req], parseResponse WorkflowSchema body)

/-- getWorkflowUsage from src/src/operations/actions.ts. -/
def getWorkflowUsage (respond : Request → HttpResponse) (owner repo : String)
    (workflowId : WorkflowId) : OpResult (List (String × Value)) :=
  match validateOwnerName owner with
  | .error e => ([], .error (.validation [e] none))
  | .ok owner =>
  match validateRepositoryName repo with
  | .error e => ([], .error (.validation [e] none))
  | .ok repo =>
  let url := "https://api.github.com/repos/" ++ owner ++ "/" ++ repo ++
    "/actions/workflows/" ++ workflowId.render ++ "/timing"
  let req : Request := ⟨url, "GET", none⟩
  match classifyResponse (respond req) with
  | .error e => ([req], .error e)
  | .ok body => ([req], parseResponse WorkflowUsageSchema body)

/-- The base URL selected by listWorkflowRuns (actions.ts lines 195-200): the
JavaScript truthiness test `if (options.workflowId)` selects the per-workflow
runs path, and otherwise the repository-wide runs path. -/
def listWorkflowRunsBase (owner repo : String) (workflowId : Option WorkflowId) : String :=
  match workflowId with
  | some w =>
      if w.truthy then
        "https://api.github.com/repos/" ++ owner ++ "/" ++ repo ++
          "/actions/workflows/" ++ w.render ++ "/runs"
      else
        "https://api.github.com/repos/" ++ owner ++ "/" ++ repo ++ "/actions/runs"
  | none => "https://api.github.com/repos/" ++ owner ++ "/" ++ repo ++ "/actions/runs"

/-- The optional query mapping listWorkflowRuns passes to buildUrl (actions.ts
lines 202-212); note `exclude_pull_requests` is pre-serialized there by the
conditional `options.excludePullRequests ? "true" : undefined`. -/
def listWorkflowRunsQueryInput (o : ListRunsOptions) : List (String × Option QVal) :=
  [("actor", o.actor.map QVal.s),
   ("branch", o.branch.map QVal.s),
   ("event", o.event.map QVal.s),
   ("status", o.status.map QVal.s),
   ("created", o.created.map QVal.s),
   ("exclude_pull_requests",
     match o.excludePullRequests with
     | some true => some (QVal.s "true")
     | _ => none),
   ("check_suite_id", o.checkSuiteId.map QVal.n),
   ("page", o.page.map QVal.n),
   ("per_page", o.perPage.map QVal.n)]

/-- listWorkflowRuns from src/src/operations/actions.ts. -/
def listWorkflowRuns (respond : Request → HttpResponse) (owner repo : String)
    (options : ListRunsOptions) : OpResult (List (String × Value)) :=
  match validateOwnerName owner with
  | .error e => ([], .error (.validation [e] none))
  | .ok owner =>
  match validateRepositoryName repo with
  | .error e => ([], .error (.validation [e] none))
  | .ok repo =>
  let url := buildUrl (listWorkflowRunsBase owner repo options.workflowId)
    (listWorkflowRunsQueryInput options)
  let req : Request := ⟨url, "GET", none⟩
  match classifyResponse (respond req) with
  | .error e => ([req], .error e)
  | .ok body => ([req], parseResponse WorkflowRunsSchema body)

/-- getWorkflowRun from src/src/operations/actions.ts. -/
def getWorkflowRun (respond : Request → HttpResponse) (owner repo : String)
    (runId : Int) : OpResult (List (String × Value)) :=
  match validateOwnerName owner with
  | .error e => ([], .error (.validation [e] none))
  | .ok owner =>
  match validateRepositoryName repo with
  | .error e => ([], .error (.validation [e] none))
  | .ok repo =>
  let url := "https://api.github.com/repos/" ++ owner ++ "/" ++ repo ++
    "/actions/runs/" ++ toString runId
  let req : Request := ⟨url, "GET", none⟩
  match classifyResponse (respond req) with
  | .error e => ([req], .error e)
  | .ok body => ([req], parseResponse WorkflowRunSchema body)

/-- getWorkflowRunJobs from src/src/operations/actions.ts. -/
def getWorkflowRunJobs (respond : Request → HttpResponse) (owner repo : String)
    (runId : Int) (filter : Option String) (page perPage : Option Int) :
    OpResult (List (String × Value)) :=
  match validateOwnerName owner with
  | .error e => ([], .error (.validation [e] none))
  | .ok owner =>
  match validateRepositoryName repo with
  | .error e => ([], .error (.validation [e] none))
  | .ok repo =>
  let url := buildUrl
    ("https://api.github.com/repos/" ++ owner ++ "/" ++ repo ++
      "/actions/runs/" ++ toString runId ++ "/jobs")
    [("filter", filter.map QVal.s), ("page", page.map QVal.n),
     ("per_page", perPage.map QVal.n)]
  let req : Request := ⟨url, "GET", none⟩
  match classifyResponse (respond req) with
  | .error e => ([req], .error e)
  | .ok body => ([req], parseResponse JobsSchema body)

/-- The dispatch request body built by triggerWorkflow (actions.ts lines
293-300): always `ref`, plus the inputs mapping verbatim under `inputs` exactly
when it is defined and non-empty. -/
def triggerWorkflowBody (ref : String) (inputs : Option (List (String × String))) : Value :=
  match inputs with
  | some kvs =>
      if 0 < kvs.length then
        Value.obj [("ref", Value.str ref),
                   ("inputs", Value.obj (kvs.map fun kv => (kv.1, Value.str kv.2)))]
      else
        Value.obj [("ref", Value.str ref)]
  | none => Value.obj [("ref", Value.str ref)]

/-- triggerWorkflow from src/src/operations/actions.ts: POST the dispatch body
and, on success, return the synthetic acknowledgment naming the workflow and
ref. -/
def triggerWorkflow (respond : Request → HttpResponse) (owner repo : String)
    (workflowId : WorkflowId) (ref : String)
    (inputs : Option (List (String × String))) : OpResult SuccessResponse :=
  match validateOwnerName owner with
  | .error e => ([], .error (.validation [e] none))
  | .ok owner =>
  match validateRepositoryName repo with
  | .error e => ([], .error (.validation [e] none))
  | .ok repo =>
  let url := "https://api.github.com/repos/" ++ owner ++ "/" ++ repo ++
    "/actions/workflows/" ++ workflowId.render ++ "/dispatches"
  let req : Request := ⟨url, "POST", some (triggerWorkflowBody ref inputs)⟩
  match classifyResponse (respond req) with
  | .error e => ([req], .error e)
  | .ok _ => ([req],
      .ok ⟨true, "Workflow " ++ workflowId.render ++ " triggered on " ++ ref⟩)

/-- cancelWorkflowRun from src/src/operations/actions.ts: POST to the cancel
endpoint and return the synthetic acknowledgment naming the run. -/
def cancelWorkflowRun (respond : Request → HttpResponse) (owner repo : String)
    (runId : Int) : OpResult SuccessResponse :=
  match validateOwnerName owner with
  | .error e => ([], .error (.validation [e] none))
  | .ok owner =>
  match validateRepositoryName repo with
  | .error e => ([], .error (.validation [e] none))
  | .ok repo =>
  let url := "https://api.github.com/repos/" ++ owner ++ "/" ++ repo ++
    "/actions/runs/" ++ toString runId ++ "/cancel"
  let req : Request := ⟨url, "POST", none⟩
  match classifyResponse (respond req) with
  | .error e => ([req], .error e)
  | .ok _ => ([req], .ok ⟨true, "Workflow run " ++ toString runId ++ " cancelled"⟩)

/-- rerunWorkflowRun from src/src/operations/actions.ts: POST to the rerun
endpoint and return the synthetic acknowledgment naming the run. -/
def rerunWorkflowRun (respond : Request → HttpResponse) (owner repo : String)
    (runId : Int) : OpResult SuccessResponse :=
  match validateOwnerName owner with
  | .error e => ([], .error (.validation [e] none))
  | .ok owner =>
  match validateRepositoryName repo with
  | .error e => ([], .error (.validation [e] none))
  | .ok repo =>
  let url := "https://api.github.com/repos/" ++ owner ++ "/" ++ repo ++
    "/actions/runs/" ++ toString runId ++ "/rerun"
  let req : Request := ⟨url, "POST", none⟩
  match classifyResponse (respond req) with
  | .error e => ([req], .error e)
  | .ok _ => ([req], .ok ⟨true, "Workflow run " ++ toString runId ++ " restarted"⟩)

/-- One registered tool: its name and the required and optional parameter names
of its declared schema (src/src/index.ts, server.tool registrations). -/
structure ToolDecl where
  name : String
  required : List String
  optional : List String
deriving DecidableEq

/-- The required parameter names of a zod schema, in declaration order. -/
def zRequiredNames (sch : List ZField) : List String :=
  (sch.filter fun f => !f.isOptional).map fun f => f.name

/-- The optional parameter names of a zod schema, in declaration order. -/
def zOptionalNames (sch : List ZField) : List String :=
  (sch.filter fun f => f.isOptional).map fun f => f.name

/-- The tool surface registered by src/src/index.ts, in registration order: one
server.tool call per capability, each carrying its operation's schema shape. -/
def registeredTools : List ToolDecl :=
  [⟨"list_workflows", zRequiredNames ListWorkflowsSchema, zOptionalNames ListWorkflowsSchema⟩,
   ⟨"get_workflow", zRequiredNames GetWorkflowSchema, zOptionalNames GetWorkflowSchema⟩,
   ⟨"get_workflow_usage", zRequiredNames GetWorkflowUsageSchema, zOptionalNames GetWorkflowUsageSchema⟩,
   ⟨"list_workflow_runs", zRequiredNames ListWorkflowRunsSchema, zOptionalNames ListWorkflowRunsSchema⟩,
   ⟨"get_workflow_run", zRequiredNames GetWorkflowRunSchema, zOptionalNames GetWorkflowRunSchema⟩,
   ⟨"get_workflow_run_jobs", zRequiredNames GetWorkflowRunJobsSchema, zOptionalNames GetWorkflowRunJobsSchema⟩,
   ⟨"trigger_workflow", zRequiredNames TriggerWorkflowSchema, zOptionalNames TriggerWorkflowSchema⟩,
   ⟨"cancel_workflow_run", zRequiredNames CancelWorkflowRunSchema, zOptionalNames CancelWorkflowRunSchema⟩,
   ⟨"rerun_workflow", zRequiredNames RerunWorkflowSchema, zOptionalNames RerunWorkflowSchema⟩]

/-- The per-workflow runs path, as the spec's wire contract describes it. -/
def perWorkflowRunsPath (owner repo : String) (w : WorkflowId) : String :=
  "https://api.github.com/repos/" ++ owner ++ "/" ++ repo ++ "/actions/workflows/" ++
    w.render ++ "/runs"

/-- The repository-wide runs path, as the spec's wire contract describes it. -/
def repoWideRunsPath (owner repo : String) : String :=
  "https://api.github.com/repos/" ++ owner ++ "/" ++ repo ++ "/actions/runs"

/-- A network oracle answering every request with 200 and an empty body. -/
def emptyOkRespond : Request → HttpResponse := fun _ => ⟨200, none, none, none⟩

/-- Rate-limit exhaustion indication on a response: the remaining-quota header
is zero and a reset header is present. -/
def rateLimitExhausted (r : HttpResponse) : Bool :=
  r.rateLimitRemaining == some 0 && r.rateLimitReset.isSome

/-- C1. The claim as stated is false on the code: `listWorkflowRuns` selects
the path by JavaScript truthiness, so the defined but falsy workflow identifier
0 is routed to the repository-wide runs path, not the per-workflow runs path
the claim requires for every defined `workflowId`. -/
theorem listWorkflowRuns_falsy_workflowId_counterexample :
    ((listWorkflowRuns emptyOkRespond "octocat" "hello-world"
        { workflowId := some (WorkflowId.num 0) }).1.map Request.url =
      [repoWideRunsPath "octocat" "hello-world"]) ∧
    repoWideRunsPath "octocat" "hello-world" ≠
      perWorkflowRunsPath "octocat" "hello-world" (WorkflowId.num 0) := by
  exact ⟨rfl, by decide⟩

/-- C1 (amended). For every call to `listWorkflowRuns`, a truthy `workflowId`
(a non-empty string or a non-zero number) selects the per-workflow runs path,
and an absent or falsy `workflowId` (the number 0 or the empty string) selects
the repository-wide runs path. -/
theorem listWorkflowRuns_path_selection (owner repo : String)
    (wid : Option WorkflowId) :
    (jsTruthy wid = false →
      listWorkflowRunsBase owner repo wid = repoWideRunsPath owner repo) ∧
    (∀ w, wid = some w → w.truthy = true →
      listWorkflowRunsBase owner repo wid = perWorkflowRunsPath owner repo w) := by
  constructor
  · intro h
    cases wid with
    | none => rfl
    | some w =>
        simp only [jsTruthy] at h
        simp [listWorkflowRunsBase, h, repoWideRunsPath]
  · rintro w rfl hw
    simp [listWorkflowRunsBase, hw, perWorkflowRunsPath]

/-- C1 witness: a concrete truthy numeric workflow id is routed to the
per-workflow runs path. -/
theorem listWorkflowRuns_path_selection_witness :
    listWorkflowRunsBase "octocat" "hello-world" (some (WorkflowId.num 161335)) =
      perWorkflowRunsPath "octocat" "hello-world" (WorkflowId.num 161335) :=
  (listWorkflowRuns_path_selection "octocat" "hello-world"
    (some (WorkflowId.num 161335))).2 (WorkflowId.num 161335) rfl (by decide)

/-- C2. The claim as stated is false on the code: with `excludePullRequests`
defined and equal to false, `listWorkflowRuns` maps the key to undefined, so
the built query contains no `exclude_pull_requests` key at all — the claim
requires the key to be present with the value "false". -/
theorem excludePullRequests_false_counterexample :
    buildUrlParams (listWorkflowRunsQueryInput { excludePullRequests := some false }) = [] ∧
    (buildUrlParams
        (listWorkflowRunsQueryInput { excludePullRequests := some false })).lookup
      "exclude_pull_requests" = none := by
  exact ⟨rfl, rfl⟩

/-- C2 (amended). For every call to `listWorkflowRuns`, the built query string
contains the key `exclude_pull_requests` exactly when `excludePullRequests` is
defined and true, and then with the literal string value "true"; when
`excludePullRequests` is false or absent the key is omitted entirely. -/
theorem excludePullRequests_serialization (o : ListRunsOptions) :
    (buildUrlParams (listWorkflowRunsQueryInput o)).lookup "exclude_pull_requests" =
      match o.excludePullRequests with
      | some true => some "true"
      | _ => none := by
  obtain ⟨wid, actor, branch, event, status, created, epr, csid, page, perPage⟩ := o
  rcases epr with _ | b
  · cases actor <;> cases branch <;> cases event <;> cases status <;> cases created <;>
      cases csid <;> cases page <;> cases perPage <;> rfl
  · cases b <;> (cases actor <;> cases branch <;> cases event <;> cases status <;>
      cases created <;> cases csid <;> cases page <;> cases perPage <;> rfl)

/-- Helper: on a 403 response the classification depends only on the two
rate-limit headers, as spec section 4.3 prescribes. -/
theorem classify_403 (r : HttpResponse) (h : r.status = 403) :
    classifyResponse r =
      match r.rateLimitRemaining, r.rateLimitReset with
      | some 0, some reset => .error (.rateLimit reset)
      | _, _ => .error .permission := by
  unfold classifyResponse
  rw [h]
  rw [if_neg (by decide), if_neg (by decide), if_pos rfl]

/-- Helper: a 2xx response classifies as success carrying the body. -/
theorem classify_2xx (r : HttpResponse) (h1 : 200 ≤ r.status) (h2 : r.status < 300) :
    classifyResponse r = .ok r.body := by
  unfold classifyResponse
  rw [if_pos ⟨h1, h2⟩]

/-- C3. For every upstream 403 response whose headers indicate zero remaining
rate-limit quota together with a reset header, the adapter raises RateLimitError
carrying exactly the reset value parsed from that header; for every 403 without
such exhaustion indication it raises PermissionError; the two are never
conflated. -/
theorem githubRequest_403_classification (respond : Request → HttpResponse)
    (url method : String) (body : Option Value)
    (h403 : (respond ⟨url, method, body⟩).status = 403) :
    (∀ reset, (respond ⟨url, method, body⟩).rateLimitRemaining = some 0 →
      (respond ⟨url, method, body⟩).rateLimitReset = some reset →
      githubRequest respond url method body = .error (.rateLimit reset)) ∧
    (rateLimitExhausted (respond ⟨url, method, body⟩) = false →
      githubRequest respond url method body = .error .permission) := by
  constructor
  · intro reset hrem hres
    unfold githubRequest
    rw [classify_403 _ h403, hrem, hres]
  · intro hex
    unfold githubRequest
    rw [classify_403 _ h403]
    unfold rateLimitExhausted at hex
    rcases hrem : (respond ⟨url, method, body⟩).rateLimitRemaining with _ | n
    · rfl
    · rcases hres : (respond ⟨url, method, body⟩).rateLimitReset with _ | reset
      · match n with
        | 0 => rfl
        | Nat.succ m => rfl
      · rw [hrem, hres] at hex
        match n with
        | 0 => simp at hex
        | Nat.succ m => rfl

/-- C3 witness: a concrete exhausted 403 yields RateLimitError with the header
reset value. -/
theorem githubRequest_403_classification_witness :
    githubRequest (fun _ => ⟨403, some 0, some 1700000000, none⟩)
      "https://api.github.com/repos/octocat/hello-world/actions/workflows" "GET" none =
      .error (.rateLimit 1700000000) :=
  (githubRequest_403_classification (fun _ => ⟨403, some 0, some 1700000000, none⟩)
    "https://api.github.com/repos/octocat/hello-world/actions/workflows" "GET" none
    rfl).1 1700000000 rfl rfl

/-- C4. The claim as stated is false on the code: with both the owner and the
repository name violating their naming rules, the operation fails with a
ValidationError carrying only the owner's field error — the repository field
error, although the repository name is itself invalid, is not enumerated. -/
theorem validation_single_field_counterexample :
    (listWorkflows emptyOkRespond "-octocat" "bad repo" none none).2 =
      .error (.validation
        [⟨"owner", "owner name cannot start or end with a hyphen"⟩] none) ∧
    validateRepositoryName "bad repo" =
      .error ⟨"repo", "repository name contains disallowed characters"⟩ := by
  exact ⟨rfl, rfl⟩

/-- C4 (amended). When the parameter set violates the naming rules in more than
one field, the operation fails with a ValidationError carrying the field error
of the first field checked (owner before repo), not the complete set: an
invalid owner reports only the owner error, and an invalid repo with a valid
owner reports only the repo error. -/
theorem validation_reports_first_field_error (respond : Request → HttpResponse)
    (owner repo : String) (page perPage : Option Int) :
    (∀ e, validateOwnerName owner = .error e →
      listWorkflows respond owner repo page perPage =
        ([], .error (.validation [e] none))) ∧
    (∀ o e, validateOwnerName owner = .ok o → validateRepositoryName repo = .error e →
      listWorkflows respond owner repo page perPage =
        ([], .error (.validation [e] none))) := by
  constructor
  · intro e he
    simp [listWorkflows, he]
  · intro o e ho he
    simp [listWorkflows, ho, he]

/-- C4 witness: with both fields invalid, the concrete call reports exactly the
owner's error. -/
theorem validation_reports_first_field_error_witness :
    listWorkflows emptyOkRespond "-octocat" "bad repo" none none =
      ([], .error (.validation
        [⟨"owner", "owner name cannot start or end with a hyphen"⟩] none)) :=
  (validation_reports_first_field_error emptyOkRespond "-octocat" "bad repo"
    none none).1 ⟨"owner", "owner name cannot start or end with a hyphen"⟩ rfl

/-- C5. For every operation function and every input whose owner or repo fails
syntactic validation, the operation fails with a ValidationError and issues no
HTTP request at all: the request trace of every one of the nine operations is
empty. -/
theorem validation_failure_blocks_requests (respond : Request → HttpResponse)
    (owner repo : String) (page perPage : Option Int) (wid : WorkflowId)
    (options : ListRunsOptions) (runId : Int) (filter : Option String)
    (ref : String) (inputs : Option (List (String × String)))
    (h : (∃ e, validateOwnerName owner = .error e) ∨
         (∃ e, validateRepositoryName repo = .error e)) :
    ((listWorkflows respond owner repo page perPage).1 = [] ∧
      ∃ errs, (listWorkflows respond owner repo page perPage).2 =
        .error (.validation errs none)) ∧
    ((getWorkflow respond owner repo wid).1 = [] ∧
      ∃ errs, (getWorkflow respond owner repo wid).2 =
        .error (.validation errs none)) ∧
    ((getWorkflowUsage respond owner repo wid).1 = [] ∧
      ∃ errs, (getWorkflowUsage respond owner repo wid).2 =
        .error (.validation errs none)) ∧
    ((listWorkflowRuns respond owner repo options).1 = [] ∧
      ∃ errs, (listWorkflowRuns respond owner repo options).2 =
        .error (.validation errs none)) ∧
    ((getWorkflowRun respond owner repo runId).1 = [] ∧
      ∃ errs, (getWorkflowRun respond owner repo runId).2 =
        .error (.validation errs none)) ∧
    ((getWorkflowRunJobs respond owner repo runId filter page perPage).1 = [] ∧
      ∃ errs, (getWorkflowRunJobs respond owner repo runId filter page perPage).2 =
        .error (.validation errs none)) ∧
    ((triggerWorkflow respond owner repo wid ref inputs).1 = [] ∧
      ∃ errs, (triggerWorkflow respond owner repo wid ref inputs).2 =
        .error (.validation errs none)) ∧
    ((cancelWorkflowRun respond owner repo runId).1 = [] ∧
      ∃ errs, (cancelWorkflowRun respond owner repo runId).2 =
        .error (.validation errs none)) ∧
    ((rerunWorkflowRun respond owner repo runId).1 = [] ∧
      ∃ errs, (rerunWorkflowRun respond owner repo runId).2 =
        .error (.validation errs none)) := by
  have hcase : (∃ e, validateOwnerName owner = Except.error e) ∨
      ((∃ o, validateOwnerName owner = Except.ok o) ∧
        ∃ e, validateRepositoryName repo = Except.error e) := by
    rcases h with ⟨e, he⟩ | ⟨e, he⟩
    · exact .inl ⟨e, he⟩
    · cases ho : validateOwnerName owner with
      | error e2 => exact .inl ⟨e2, rfl⟩
      | ok o => exact .inr ⟨⟨o, rfl⟩, e, he⟩
  rcases hcase with ⟨e, he⟩ | ⟨⟨o, ho⟩, e, he⟩
  · refine ⟨⟨?_, [e], ?_⟩, ⟨?_, [e], ?_⟩, ⟨?_, [e], ?_⟩, ⟨?_, [e], ?_⟩, ⟨?_, [e], ?_⟩,
      ⟨?_, [e], ?_⟩, ⟨?_, [e], ?_⟩, ⟨?_, [e], ?_⟩, ⟨?_, [e], ?_⟩⟩ <;>
      simp [listWorkflows, getWorkflow, getWorkflowUsage, listWorkflowRuns,
        getWorkflowRun, getWorkflowRunJobs, triggerWorkflow, cancelWorkflowRun,
        rerunWorkflowRun, he]
  · refine ⟨⟨?_, [e], ?_⟩, ⟨?_, [e], ?_⟩, ⟨?_, [e], ?_⟩, ⟨?_, [e], ?_⟩, ⟨?_, [e], ?_⟩,
      ⟨?_, [e], ?_⟩, ⟨?_, [e], ?_⟩, ⟨?_, [e], ?_⟩, ⟨?_, [e], ?_⟩⟩ <;>
      simp [listWorkflows, getWorkflow, getWorkflowUsage, listWorkflowRuns,
        getWorkflowRun, getWorkflowRunJobs, triggerWorkflow, cancelWorkflowRun,
        rerunWorkflowRun, ho, he]

/-- C5 witness: with a concrete invalid owner, a concrete call issues no HTTP
request. -/
theorem validation_failure_blocks_requests_witness :
    (listWorkflows emptyOkRespond "-octocat" "hello-world" none none).1 = [] :=
  ((validation_failure_blocks_requests emptyOkRespond "-octocat" "hello-world"
    none none (WorkflowId.num 1) {} 1 none "main" none
    (Or.inl ⟨⟨"owner", "owner name cannot start or end with a hyphen"⟩, rfl⟩)).1).1

/-- C6. For every call to `triggerWorkflow` with valid owner and repo, the
issued request is a single POST whose body is `triggerWorkflowBody ref inputs`;
that body contains exactly the key `ref` when `inputs` is absent or the empty
mapping, and `ref` plus the mapping verbatim under the key `inputs` when the
mapping is non-empty. -/
theorem triggerWorkflow_dispatch_body (respond : Request → HttpResponse)
    (owner repo : String) (wid : WorkflowId) (ref : String)
    (inputs : Option (List (String × String)))
    (ho : validateOwnerName owner = .ok owner)
    (hr : validateRepositoryName repo = .ok repo) :
    ((triggerWorkflow respond owner repo wid ref inputs).1 =
      [⟨"https://api.github.com/repos/" ++ owner ++ "/" ++ repo ++
          "/actions/workflows/" ++ wid.render ++ "/dispatches", "POST",
        some (triggerWorkflowBody ref inputs)⟩]) ∧
    (inputs = none ∨ inputs = some [] →
      triggerWorkflowBody ref inputs = Value.obj [("ref", Value.str ref)]) ∧
    (∀ kvs, inputs = some kvs → kvs ≠ [] →
      triggerWorkflowBody ref inputs =
        Value.obj [("ref", Value.str ref),
          ("inputs", Value.obj (kvs.map fun kv => (kv.1, Value.str kv.2)))]) := by
  refine ⟨?_, ?_, ?_⟩
  · unfold triggerWorkflow
    rw [ho, hr]
    cases hc : classifyResponse (respond
        ⟨"https://api.github.com/repos/" ++ owner ++ "/" ++ repo ++
          "/actions/workflows/" ++ wid.render ++ "/dispatches", "POST",
          some (triggerWorkflowBody ref inputs)⟩) <;> simp [hc]
  · rintro (rfl | rfl) <;> rfl
  · rintro kvs rfl hk
    cases kvs with
    | nil => exact absurd rfl hk
    | cons a l => simp [triggerWorkflowBody]

/-- C6 witness: a concrete call with empty inputs sends a body holding only
the ref, and a concrete non-empty mapping is embedded verbatim. -/
theorem triggerWorkflow_dispatch_body_witness :
    (triggerWorkflow emptyOkRespond "octocat" "hello-world" (WorkflowId.num 161335)
        "main" (some [])).1 =
      [⟨"https://api.github.com/repos/octocat/hello-world/actions/workflows/161335/dispatches",
        "POST", some (triggerWorkflowBody "main" (some []))⟩] :=
  (triggerWorkflow_dispatch_body emptyOkRespond "octocat" "hello-world"
    (WorkflowId.num 161335) "main" (some []) rfl rfl).1

/-- C7. For every call to `cancelWorkflowRun` or `rerunWorkflowRun` with valid
owner and repo whose upstream response is 2xx with an empty body, the function
returns the synthetic acknowledgment with success true and a message containing
the decimal representation of the runId argument. -/
theorem cancel_rerun_acknowledgment (respond : Request → HttpResponse)
    (owner repo : String) (runId : Int)
    (ho : validateOwnerName owner = .ok owner)
    (hr : validateRepositoryName repo = .ok repo)
    (hc : ∀ req, 200 ≤ (respond req).status ∧ (respond req).status < 300 ∧
      (respond req).body = none) :
    ((cancelWorkflowRun respond owner repo runId).2 =
      .ok ⟨true, "Workflow run " ++ toString runId ++ " cancelled"⟩) ∧
    ((rerunWorkflowRun respond owner repo runId).2 =
      .ok ⟨true, "Workflow run " ++ toString runId ++ " restarted"⟩) ∧
    (∃ pre post, "Workflow run " ++ toString runId ++ " cancelled" =
      pre ++ toString runId ++ post) ∧
    (∃ pre post, "Workflow run " ++ toString runId ++ " restarted" =
      pre ++ toString runId ++ post) := by
  refine ⟨?_, ?_, ⟨"Workflow run ", " cancelled", rfl⟩,
    ⟨"Workflow run ", " restarted", rfl⟩⟩
  · have h2 := classify_2xx
      (respond ⟨"https://api.github.com/repos/" ++ owner ++ "/" ++ repo ++
        "/actions/runs/" ++ toString runId ++ "/cancel", "POST", none⟩)
      (hc _).1 (hc _).2.1
    simp [cancelWorkflowRun, ho, hr, h2]
  · have h2 := classify_2xx
      (respond ⟨"https://api.github.com/repos/" ++ owner ++ "/" ++ repo ++
        "/actions/runs/" ++ toString runId ++ "/rerun", "POST", none⟩)
      (hc _).1 (hc _).2.1
    simp [rerunWorkflowRun, ho, hr, h2]

/-- C7 witness: a concrete 2xx empty-body cancel call acknowledges with the
run id in the message. -/
theorem cancel_rerun_acknowledgment_witness :
    (cancelWorkflowRun emptyOkRespond "octocat" "hello-world" 30433642).2 =
      .ok ⟨true, "Workflow run " ++ toString (30433642 : Int) ++ " cancelled"⟩ :=
  (cancel_rerun_acknowledgment emptyOkRespond "octocat" "hello-world" 30433642
    rfl rfl (fun _ => ⟨(by decide : (200 : Nat) ≤ 200),
      (by decide : (200 : Nat) < 300), rfl⟩)).1

/-- Helper: the zod issue list is empty exactly when the body conforms to the
schema. -/
theorem zodIssues_nil_iff (sch : List ZField) (fs : List (String × Value)) :
    zodIssues sch fs = [] ↔ zodWellFormed sch fs = true := by
  induction sch with
  | nil => simp [zodIssues, zodWellFormed]
  | cons f sch ih =>
    simp only [zodIssues, zodWellFormed, List.filterMap_cons, List.all_cons] at *
    cases hl : lookupField fs f.name with
    | none => cases hopt : f.isOptional <;> simp [hl, hopt, ih]
    | some fv => cases hc : zCheck f.ty fv <;> simp [hl, hc, ih]

/-- C8. For every typed response shape and every 2xx JSON object body: a body
missing a required field or carrying an ill-typed field makes the read
operation's response validation fail with a parse error (never a coerced or
defaulted payload), and a conforming body parses into a payload in which every
modeled field keeps exactly the value the body carried. -/
theorem response_parse_sound (sch : List ZField) (fs : List (String × Value)) :
    (zodWellFormed sch fs = false →
      ∃ msg, parseResponse sch (some (Value.obj fs)) = .error (.parse msg)) ∧
    (zodWellFormed sch fs = true → ∃ payload,
      parseResponse sch (some (Value.obj fs)) = .ok payload ∧
      ∀ f ∈ sch, ∀ fv, lookupField fs f.name = some fv → (f.name, fv) ∈ payload) := by
  constructor
  · intro hwf
    cases hi : zodIssues sch fs with
    | nil =>
        rw [(zodIssues_nil_iff sch fs).1 hi] at hwf
        exact absurd hwf (by simp)
    | cons issue rest =>
        exact ⟨String.intercalate "; " (issue :: rest),
          by simp [parseResponse, zodParse, hi]⟩
  · intro hwf
    have hi : zodIssues sch fs = [] := (zodIssues_nil_iff sch fs).2 hwf
    refine ⟨sch.filterMap fun f => (lookupField fs f.name).map fun fv => (f.name, fv),
      by simp [parseResponse, zodParse, hi], ?_⟩
    intro f hf fv hfv
    exact List.mem_filterMap.2 ⟨f, hf, by rw [hfv]; rfl⟩

/-- C8 witness: a concrete conforming workflows body parses with both modeled
fields preserved. -/
theorem response_parse_sound_witness :
    zodWellFormed WorkflowsSchema
      [("total_count", Value.num 2), ("workflows", Value.arr [])] = true ∧
    ∃ payload, parseResponse WorkflowsSchema
        (some (Value.obj [("total_count", Value.num 2), ("workflows", Value.arr [])])) =
        .ok payload ∧
      ∀ f ∈ WorkflowsSchema, ∀ fv,
        lookupField [("total_count", Value.num 2), ("workflows", Value.arr [])] f.name =
          some fv → (f.name, fv) ∈ payload :=
  ⟨rfl, (response_parse_sound WorkflowsSchema
    [("total_count", Value.num 2), ("workflows", Value.arr [])]).2 rfl⟩

/-- C9. The claim as stated is false on the code: no tool named
rerun_workflow_run is registered — the rerun capability's tool is named
rerun_workflow. -/
theorem no_rerun_workflow_run_tool :
    ((registeredTools.map ToolDecl.name).contains "rerun_workflow_run") = false := by
  decide

/-- C9 (amended). The tool surface registers exactly one named tool per
capability, with distinct names matching the spec table except that the rerun
capability's tool is named rerun_workflow; that tool requires owner, repo and
runId and declares no optional parameter. -/
theorem tool_surface_registration :
    registeredTools.map ToolDecl.name =
      ["list_workflows", "get_workflow", "get_workflow_usage", "list_workflow_runs",
       "get_workflow_run", "get_workflow_run_jobs", "trigger_workflow",
       "cancel_workflow_run", "rerun_workflow"] ∧
    (registeredTools.map ToolDecl.name).Nodup ∧
    ToolDecl.mk "rerun_workflow" ["owner", "repo", "runId"] [] ∈ registeredTools := by
  exact ⟨by decide, by decide, by decide⟩

/-- C10. The parameter schema of get_workflow_usage is definitionally the
schema of get_workflow, and the schema of rerun_workflow is definitionally the
schema of cancel_workflow_run: on every input their validations agree exactly,
issues and parsed result alike. -/
theorem schema_alias_equivalence (v : Value) :
    zodParse GetWorkflowUsageSchema v = zodParse GetWorkflowSchema v ∧
    zodParse RerunWorkflowSchema v = zodParse CancelWorkflowRunSchema v :=
  ⟨rfl, rfl⟩

end GhActionsMcp
